import Mathlib

/-!
Verification development for the aport-integrations repository.

The repository's reusable core is the APort verification client
(examples/developer-tools/cli/src/client.js) together with the decision
extraction performed by its consumers (the CLI verify command, the
messaging/data-export policy test scripts, the Go hello-world example) and
the agent-id resolver of templates/javascript-middleware/src/index.js.

JavaScript is embedded shallowly: response bodies are records over option
types, JS truthiness of the consulted fields is modelled explicitly, an
axios call outcome is a three-way sum (resolved response, rejected with an
HTTP error response, rejected with no response), a thrown Error e is
Except.error of e.message, and each client method additionally reports how
many HTTP requests it issued.
-/

namespace Aport

/-- One entry of decision.reasons, with the fields the repository reads
(r.code and r.message), both possibly absent. -/
structure Reason where
  code : Option String
  message : Option String
  deriving DecidableEq, Repr

/-- A decision object with the fields the repository's consumers consult.
Absent JSON fields are none. -/
structure Decision where
  allow : Option Bool
  decision_id : Option String
  expires_in : Option Int
  reasons : Option (List Reason)
  assurance_level : Option String
  deriving DecidableEq, Repr

/-- A JSON field expected to hold a decision object: absent (undefined),
JSON null, or an object. Truthiness: only the object is truthy. -/
inductive DSlot where
  | absent
  | nullv
  | obj (d : Decision)
  deriving DecidableEq, Repr

/-- JS truthiness of a decision slot. -/
def DSlot.truthy : DSlot → Bool
  | .obj _ => true
  | _ => false

/-- Decision carried by a slot, if any. -/
def DSlot.toDecision? : DSlot → Option Decision
  | .obj d => some d
  | _ => none

/-- The data field of a response body: absent, JSON null, or an object
carrying its own decision slot. -/
inductive DataSlot where
  | absent
  | nullv
  | obj (decision : DSlot)
  deriving DecidableEq, Repr

/-- A 200 response body as the repository's consumers see it: an optional
data wrapper and an optional top-level decision. -/
structure Body where
  data : DataSlot
  decision : DSlot
  deriving DecidableEq, Repr

/-- Optional chaining result.data?.decision: undefined when data is absent
or null, else the wrapper's decision slot. -/
def Body.dataDecision (b : Body) : DSlot :=
  match b.data with
  | .obj d => d
  | _ => .absent

/-- JS a || b on decision slots: a when truthy, else b. -/
def jsOrSlot (a b : DSlot) : DSlot :=
  if a.truthy then a else b

/-- CLI verify command (examples/developer-tools/cli/src/index.js line 103):
const decision = result.data?.decision || result.decision; -/
def cliDecision (b : Body) : DSlot :=
  jsOrSlot b.dataDecision b.decision

/-- Messaging policy test script (test-messaging-policy, line 182):
const decision = result.decision || result.data?.decision; -/
def msgDecision (b : Body) : DSlot :=
  jsOrSlot b.decision b.dataDecision

/-- Go example response as unmarshalled (hello-world Go main.go): Data and
Decision are pointers, nil both for an absent and a JSON-null field; the
outer option is the Data pointer, the inner one the Data.Decision pointer. -/
structure GoBody where
  data : Option (Option Decision)
  decision : Option Decision
  deriving DecidableEq, Repr

/-- printVerificationResult extraction (Go example lines 148 to 153):
if result.Data != nil and result.Data.Decision != nil use it, else if
result.Decision != nil use that, else no decision. -/
def goExtract (b : GoBody) : Option Decision :=
  match b.data with
  | some (some d) => some d
  | _ => b.decision

/-- JS truthiness of decision.allow: true only for the boolean true;
an absent field (undefined) and false are falsy. -/
def allowTruthy : Option Bool → Bool
  | some b => b
  | none => false

/-- CLI line 104: const isApproved = decision && decision.allow
(as a JS condition, i.e. its truthiness). -/
def cliIsApproved (b : Body) : Bool :=
  match cliDecision b with
  | .obj d => allowTruthy d.allow
  | _ => false

/-- Observable CLI outcome for a 200 body: success print, failure print
with the decision's reasons, or failure print with Reason: Unknown.
There is no error outcome for a 200 body in the CLI source. -/
inductive CliOutcome where
  | approved
  | rejected (reasons : List Reason)
  | rejectedUnknown
  deriving DecidableEq, Repr

/-- CLI verify command outcome (index.js lines 104 to 140): approved when
isApproved is truthy; otherwise print the reasons when decision and
decision.reasons are truthy and nonempty, else Reason: Unknown. -/
def cliOutcome (b : Body) : CliOutcome :=
  if cliIsApproved b then
    .approved
  else
    match cliDecision b with
    | .obj d =>
      match d.reasons with
      | some rs => if rs.length > 0 then .rejected rs else .rejectedUnknown
      | none => .rejectedUnknown
    | _ => .rejectedUnknown

/-- Modelled from the spec, section 4.3 Decision Parser (the code has no
such component; this reference definition follows the spec's words for
comparison): check shape A first; if data.decision is present and non-null
use it; else fall back to top-level decision; else fail with
MalformedResponse. -/
def specDecisionParse (b : Body) : Except String Decision :=
  match b.dataDecision with
  | .obj d => .ok d
  | _ =>
    match b.decision with
    | .obj d => .ok d
    | _ => .error "MalformedResponse"

/-- The error.response object an axios rejection carries when an HTTP
response was received: its status code, the message field of its JSON body
(error.response.data.message, possibly absent), and its statusText. -/
structure ErrResp where
  status : Nat
  message : Option String
  statusText : String
  deriving DecidableEq, Repr

/-- Outcome of one axios request: resolved with a body, rejected with an
HTTP error response attached, or rejected with no response received
(DNS, connect, timeout). -/
inductive AxiosResult (β : Type) where
  | ok (data : β)
  | httpErr (e : ErrResp)
  | netErr (message : String)
  deriving DecidableEq, Repr

/-- JS a || b where a is an optional string and b a string: a unless a is
absent or the empty string (both falsy). -/
def jsOrStr (a : Option String) (b : String) : String :=
  match a with
  | some s => if s = "" then b else s
  | none => b

/-- JS truthiness of an optional string: truthy exactly when present and
non-empty. -/
def jsTruthyOptStr : Option String → Bool
  | some s => if s = "" then false else true
  | none => false

/-- JS a || b on two optional strings. -/
def jsOrOpt (a b : Option String) : Option String :=
  if jsTruthyOptStr a then a else b

/-- The POST request verify issues (client.js lines 295 to 301): path
/api/verify/policy/{policy} and body context.agent_id, context.policy_id,
context.context. -/
structure VerifyRequest (κ : Type) where
  path : String
  agent_id : String
  policy_id : String
  context : κ
  deriving DecidableEq, Repr

/-- Request construction performed inline by verify. -/
def buildVerifyRequest {κ : Type} (policy agentId : String) (ctx : κ) :
    VerifyRequest κ :=
  { path := "/api/verify/policy/" ++ policy
    agent_id := agentId
    policy_id := policy
    context := ctx }

/-- Message thrown for an axios rejection that carries a response
(client.js catch blocks): API Error: error.response.data.message ||
error.response.statusText. -/
def apiErrorMessage (e : ErrResp) : String :=
  "API Error: " ++ jsOrStr e.message e.statusText

/-- APortClient.verify (client.js lines 293 to 314). The transport t maps
the one issued request to its axios outcome; the result pairs the value
returned (or the message of the Error thrown) with the number of HTTP
requests issued. The method performs no validation of its arguments and
returns response.data verbatim, hence the polymorphism in both the
context type and the body type. -/
def verify {κ β : Type} (t : VerifyRequest κ → AxiosResult β)
    (policy agentId : String) (ctx : κ) : Except String β × Nat :=
  match t (buildVerifyRequest policy agentId ctx) with
  | .ok b => (.ok b, 1)
  | .httpErr e => (.error (apiErrorMessage e), 1)
  | .netErr m => (.error ("Network Error: " ++ m), 1)

/-- APortClient.verifyPolicy (client.js lines 323 to 344), a verbatim
duplicate of verify in the source, embedded separately. -/
def verifyPolicy {κ β : Type} (t : VerifyRequest κ → AxiosResult β)
    (policy agentId : String) (ctx : κ) : Except String β × Nat :=
  match t (buildVerifyRequest policy agentId ctx) with
  | .ok b => (.ok b, 1)
  | .httpErr e => (.error (apiErrorMessage e), 1)
  | .netErr m => (.error ("Network Error: " ++ m), 1)

/-- A passport-endpoint response body with the one field getPassport
consults (agent_id) plus a second field so that distinct bodies exist. -/
structure PassBody where
  agent_id : Option String
  name : Option String
  deriving DecidableEq, Repr

/-- A GET request of getPassport: its path and the policy_pack query
parameter when present. -/
structure GetRequest where
  path : String
  policy_pack : Option String
  deriving DecidableEq, Repr

/-- The unauthenticated probe getPassport issues first (client.js lines
381 to 386): GET /api/verify/{agentId} with the fixed policy_pack
code.repository.merge.v1. -/
def probeRequest (agentId : String) : GetRequest :=
  { path := "/api/verify/" ++ agentId
    policy_pack := some "code.repository.merge.v1" }

/-- The authenticated direct lookup (client.js line 400):
GET /api/passports/{agentId}. -/
def directPassportRequest (agentId : String) : GetRequest :=
  { path := "/api/passports/" ++ agentId, policy_pack := none }

/-- APortClient.getPassport (client.js lines 378 to 416). probe is the
axios outcome of the probe request, direct that of the direct lookup
(consulted only on the fallback path); the count says how many requests
were issued. When the probe resolves, its body is returned if
response.data.agent_id is truthy, else the method falls through to the
final throw of Unable to retrieve passport information without attempting
the fallback. Only when the probe rejects does the catch run: without a
truthy api key it throws the API-key-required message, otherwise it issues
the direct lookup. -/
def getPassport (apiKey : Option String)
    (probe direct : AxiosResult PassBody) : Except String PassBody × Nat :=
  match probe with
  | .ok b =>
    if jsTruthyOptStr b.agent_id then (.ok b, 1)
    else (.error "Unable to retrieve passport information", 1)
  | _ =>
    if jsTruthyOptStr apiKey then
      match direct with
      | .ok b => (.ok b, 2)
      | .httpErr e => (.error (apiErrorMessage e), 2)
      | .netErr m => (.error ("Network Error: " ++ m), 2)
    else
      (.error "API key required for passport retrieval. Set APORT_API_KEY environment variable or use --api-key option.", 1)

/-- APortClient.createPassport (client.js lines 351 to 371): without a
truthy api key it throws before any request (count 0); otherwise it POSTs
the passport data and maps the outcome like verify. -/
def createPassport {α β : Type} (apiKey : Option String)
    (t : α → AxiosResult β) (passportData : α) : Except String β × Nat :=
  if jsTruthyOptStr apiKey then
    match t passportData with
    | .ok b => (.ok b, 1)
    | .httpErr e => (.error (apiErrorMessage e), 1)
    | .netErr m => (.error ("Network Error: " ++ m), 1)
  else
    (.error "API key required for passport creation. Set APORT_API_KEY environment variable or use --api-key option.", 0)

/-- Body of the POST /api/suspend request. -/
structure SuspendPayload where
  agent_id : String
  reason : String
  deriving DecidableEq, Repr

/-- APortClient.suspendPassport (client.js lines 424 to 441): the method
never consults this.apiKey; it unconditionally POSTs the payload (the
source default for reason is Suspended via CLI) and maps the outcome like
verify. -/
def suspendPassport {β : Type} (apiKey : Option String)
    (t : SuspendPayload → AxiosResult β) (agentId reason : String) :
    Except String β × Nat :=
  match t { agent_id := agentId, reason := reason } with
  | .ok b => (.ok b, 1)
  | .httpErr e => (.error (apiErrorMessage e), 1)
  | .netErr m => (.error ("Network Error: " ++ m), 1)

/-- The options object passed to the APortClient constructor. -/
structure ClientOptions where
  apiKey : Option String
  baseUrl : Option String
  deriving DecidableEq, Repr

/-- The two environment variables the constructor reads. -/
structure Env where
  aportApiKey : Option String
  aportBaseUrl : Option String
  deriving DecidableEq, Repr

/-- Configured client state after construction. -/
structure Client where
  apiKey : Option String
  baseUrl : String
  deriving DecidableEq, Repr

/-- APortClient constructor (client.js lines 270 to 284). It is total: the
constructor body contains no throw statement. this.apiKey =
options.apiKey || process.env.APORT_API_KEY; this.baseUrl =
options.baseUrl || process.env.APORT_BASE_URL || https aport.io. -/
def mkClient (o : ClientOptions) (env : Env) : Client :=
  { apiKey := jsOrOpt o.apiKey env.aportApiKey
    baseUrl := jsOrStr (jsOrOpt o.baseUrl env.aportBaseUrl) "https://aport.io" }

/-- Headers of the axios instance the constructor creates (client.js lines
276 to 283): the object spread attaches Authorization: Bearer {apiKey}
exactly when this.apiKey is truthy, then Content-Type. -/
def axiosHeaders (c : Client) : List (String × String) :=
  (if jsTruthyOptStr c.apiKey then
    [("Authorization", "Bearer " ++ c.apiKey.getD "")]
  else []) ++ [("Content-Type", "application/json")]

/-- Whether the axios instance carries an Authorization header. -/
def hasAuthHeader (c : Client) : Bool :=
  (axiosHeaders c).any (fun p => p.1 == "Authorization")

/-- A JavaScript value occupying an agent-id candidate slot: undefined,
null, a string, or any non-string value. -/
inductive JVal where
  | undef
  | nullv
  | str (s : String)
  | nonstring
  deriving DecidableEq, Repr

/-- The six candidate sources of extractAgentId
(templates/javascript-middleware/src/index.js lines 120 to 127), in
source order: header x-agent-id, header x-aport-agent-id, query agent_id,
body agent_id, body agentId, options.agentId. -/
structure AgentIdSources where
  headerXAgentId : JVal
  headerXAportAgentId : JVal
  queryAgentId : JVal
  bodyAgentIdSnake : JVal
  bodyAgentIdCamel : JVal
  optionsAgentId : JVal
  deriving DecidableEq, Repr

/-- The candidate values in their fixed priority order. -/
def sourceList (r : AgentIdSources) : List JVal :=
  [r.headerXAgentId, r.headerXAportAgentId, r.queryAgentId,
   r.bodyAgentIdSnake, r.bodyAgentIdCamel, r.optionsAgentId]

/-- The loop of extractAgentId (lines 129 to 136): return the first value
with agentId && typeof agentId === "string", i.e. the first non-empty
string; null (none) when the loop completes. -/
def firstAccepted : List JVal → Option String
  | [] => none
  | v :: vs =>
    match v with
    | .str s => if s = "" then firstAccepted vs else some s
    | _ => firstAccepted vs

/-- extractAgentId (templates/javascript-middleware/src/index.js lines 118
to 137). -/
def extractAgentId (r : AgentIdSources) : Option String :=
  firstAccepted (sourceList r)

/-- The candidate as the spec's resolver sees it: a non-empty string value
or nothing. -/
def jvalNonEmptyString : JVal → Option String
  | .str s => if s = "" then none else some s
  | _ => none

/-- Modelled from the spec, section 4.5 Agent-ID Resolver (this reference
definition follows the spec's words for comparison with extractAgentId):
given the candidate sources in fixed priority order, return the first
non-empty string value; return absent if none match. -/
def specAgentIdResolver (r : AgentIdSources) : Option String :=
  (sourceList r).findSome? jvalNonEmptyString

/-! Concrete fixtures used by the counterexamples and witnesses. -/

/-- A concrete allow decision. -/
def dA : Decision :=
  { allow := some true
    decision_id := some "dec_A"
    expires_in := some 3600
    reasons := some []
    assurance_level := none }

/-- A concrete deny decision, distinct from dA. -/
def dB : Decision :=
  { allow := some false
    decision_id := some "dec_B"
    expires_in := some 60
    reasons := some [{ code := some "oauth_verification_failed"
                       message := some "Agent not verified" }]
    assurance_level := none }

/-- A 200 body carrying neither data.decision nor a top-level decision. -/
def emptyBody : Body := { data := .absent, decision := .absent }

/-- A well-formed Shape A envelope: data.decision present, no top-level
decision. -/
def shapeA (d : Decision) : Body :=
  { data := .obj (.obj d), decision := .absent }

/-- A well-formed Shape B envelope: top-level decision present, no data
wrapper. -/
def shapeB (d : Decision) : Body :=
  { data := .absent, decision := .obj d }

/-- A body carrying both envelope shapes at once, with different content. -/
def bothShapesBody : Body :=
  { data := .obj (.obj dA), decision := .obj dB }

/-- A passport body carrying an agent_id. -/
def goodPass : PassBody := { agent_id := some "agt_1", name := some "Bot" }

/-- A 200 probe body carrying no agent_id. -/
def noIdPass : PassBody := { agent_id := none, name := some "Bot" }

/-- A 403 response whose JSON body is message Agent not found. -/
def err403 : ErrResp :=
  { status := 403, message := some "Agent not found", statusText := "Forbidden" }

/-- A 404 response with the same body message. -/
def err404 : ErrResp :=
  { status := 404, message := some "Agent not found", statusText := "Not Found" }

/-- A 500 response with the same body message. -/
def err500 : ErrResp :=
  { status := 500
    message := some "Agent not found"
    statusText := "Internal Server Error" }

/-! Claim theorems. -/

/-- Claim C1, counterexample. The messaging policy test site (line 182 of
the messaging test script, const decision = result.decision ||
result.data?.decision) checks the top-level decision first: on a body
where data.decision is present and non-null (dA) and the top-level
decision is dB, it uses dB, so the shape A check does not always precede
the shape B check, and a present non-null data.decision is not always the
one used. -/
theorem C1_counterexample :
    msgDecision bothShapesBody = DSlot.obj dB ∧ dB ≠ dA := by
  exact ⟨rfl, by decide⟩

/-- Claim C1, amended. The CLI verify command and the Go example check
data.decision first and agree with the spec's shape A first ordered
fallback, but the messaging policy test checks the top-level decision
first, and no extraction site fails with MalformedResponse: on a body with
neither field the CLI extracts a non-object slot (and the spec parser is
the only place the MalformedResponse failure exists). -/
theorem C1_ordered_fallback :
    (∀ b : Body, (cliDecision b).toDecision? = (specDecisionParse b).toOption) ∧
    (∀ (d : Decision) (td : Option Decision),
      goExtract { data := some (some d), decision := td } = some d) ∧
    (∀ td : Option Decision, goExtract { data := none, decision := td } = td) ∧
    (∀ td : Option Decision,
      goExtract { data := some none, decision := td } = td) ∧
    (msgDecision bothShapesBody).toDecision? ≠
      (specDecisionParse bothShapesBody).toOption ∧
    cliDecision emptyBody = DSlot.absent := by
  refine ⟨?_, fun d td => rfl, fun td => rfl, fun td => rfl, by decide, rfl⟩
  intro b
  obtain ⟨data, dec⟩ := b
  cases data with
  | absent => cases dec <;> rfl
  | nullv => cases dec <;> rfl
  | obj ds => cases ds <;> cases dec <;> rfl

/-- Claim C2, counterexample. On a 200 response whose body has neither
data.decision nor a top-level decision, verify succeeds with the raw body
(there is no MalformedResponse failure anywhere in the client), and the
CLI converts the unparseable body into a not-approved outcome printed with
Reason: Unknown. -/
theorem C2_counterexample :
    verify (fun _ : VerifyRequest Unit => AxiosResult.ok emptyBody)
        "payments.refund.v1" "agt_1" () = (Except.ok emptyBody, 1) ∧
    cliOutcome emptyBody = CliOutcome.rejectedUnknown ∧
    cliIsApproved emptyBody = false := by
  exact ⟨rfl, rfl, rfl⟩

/-- Claim C2, amended. verify returns every 200 body verbatim without
parsing it; only the spec-modelled parser fails with MalformedResponse on
a body with neither decision field, while the CLI maps such a body, and
likewise a decision whose allow field is absent, to a not-approved
outcome. -/
theorem C2_no_malformed_failure :
    (∀ (b : Body) (p a : String),
      verify (fun _ : VerifyRequest Unit => AxiosResult.ok b) p a () =
        (Except.ok b, 1)) ∧
    specDecisionParse emptyBody = Except.error "MalformedResponse" ∧
    cliOutcome emptyBody = CliOutcome.rejectedUnknown ∧
    (∀ (di : Option String) (ei : Option Int) (rs : Option (List Reason))
        (al : Option String),
      cliIsApproved
        { data := .absent
          decision := .obj
            { allow := none, decision_id := di, expires_in := ei
              reasons := rs, assurance_level := al } } = false) := by
  exact ⟨fun b p a => rfl, rfl, rfl, fun di ei rs al => rfl⟩

/-- Claim C3, counterexample. verify returns the raw response body, so a
Shape A response and a Shape B response carrying the identical decision dA
yield different caller-visible results: the claimed normalization to a
shape-independent VerificationResult does not happen inside verify. -/
theorem C3_counterexample :
    verify (fun _ : VerifyRequest Unit => AxiosResult.ok (shapeA dA))
        "payments.refund.v1" "agt_1" () ≠
      verify (fun _ : VerifyRequest Unit => AxiosResult.ok (shapeB dA))
        "payments.refund.v1" "agt_1" () := by
  intro h
  have h1 : (Except.ok (shapeA dA) : Except String Body) =
      Except.ok (shapeB dA) := congrArg Prod.fst h
  have h2 : shapeA dA = shapeB dA := Except.ok.inj h1
  have h3 : (shapeA dA).data = (shapeB dA).data := congrArg Body.data h2
  simp [shapeA, shapeB] at h3

/-- Claim C3, amended. The caller-visible result of verify differs between
the two envelope shapes (it is the unnormalized body); envelope-shape
independence holds one layer up, at the consumers' extraction: for every
decision content, the CLI extraction and the Go extraction produce that
same decision from both shapes. -/
theorem C3_shape_independence_at_extraction :
    (∀ d : Decision,
      cliDecision (shapeA d) = DSlot.obj d ∧
      cliDecision (shapeB d) = DSlot.obj d ∧
      goExtract { data := some (some d), decision := none } = some d ∧
      goExtract { data := none, decision := some d } = some d) ∧
    (∀ d : Decision,
      verify (fun _ : VerifyRequest Unit => AxiosResult.ok (shapeA d))
          "p" "a" () ≠
        verify (fun _ : VerifyRequest Unit => AxiosResult.ok (shapeB d))
          "p" "a" ()) := by
  refine ⟨fun d => ⟨rfl, rfl, rfl, rfl⟩, fun d h => ?_⟩
  have h1 : (Except.ok (shapeA d) : Except String Body) =
      Except.ok (shapeB d) := congrArg Prod.fst h
  have h2 : shapeA d = shapeB d := Except.ok.inj h1
  have h3 : (shapeA d).data = (shapeB d).data := congrArg Body.data h2
  simp [shapeA, shapeB] at h3

/-- Claim C4, counterexample. With both the policy identifier and the
agent identifier empty, verify does not fail fast locally: it still issues
its HTTP request (the observed network call count is 1, not 0) and simply
returns whatever the transport answers. -/
theorem C4_counterexample :
    verify (fun _ : VerifyRequest Unit => AxiosResult.ok emptyBody) "" "" () =
      (Except.ok emptyBody, 1) ∧
    (verify (fun _ : VerifyRequest Unit => AxiosResult.ok emptyBody)
        "" "" ()).2 ≠ 0 := by
  exact ⟨rfl, by decide⟩

/-- Claim C4, amended. The client performs no local validation of the
policy or agent identifier: for every policy, agent id, context and
transport behaviour, verify issues exactly one request, and with empty
identifiers that request is built with the empty strings in place
(path /api/verify/policy/ and empty agent_id and policy_id). -/
theorem C4_no_fail_fast :
    (∀ (policy agentId : String)
        (t : VerifyRequest Unit → AxiosResult Body),
      (verify t policy agentId ()).2 = 1) ∧
    buildVerifyRequest "" "" () =
      { path := "/api/verify/policy/", agent_id := "", policy_id := ""
        context := () } := by
  refine ⟨fun policy agentId t => ?_, rfl⟩
  unfold verify
  cases t (buildVerifyRequest policy agentId ()) <;> rfl

/-- Claim C5. extractAgentId agrees with the spec's resolver contract on
every input: it returns the first non-empty string among header
x-agent-id, header x-aport-agent-id, query agent_id, body agent_id, body
agentId, static options.agentId, in that order, and none when no source
yields one; in particular the header wins when header, query and body all
differ, and the camelCase body field is used when the snake_case one is
absent. -/
theorem C5_agent_id_resolver :
    (∀ r : AgentIdSources, extractAgentId r = specAgentIdResolver r) ∧
    extractAgentId
      { headerXAgentId := .str "id-from-header"
        headerXAportAgentId := .str "id-from-aport-header"
        queryAgentId := .str "id-from-query"
        bodyAgentIdSnake := .str "id-from-body-snake"
        bodyAgentIdCamel := .str "id-from-body-camel"
        optionsAgentId := .str "id-from-options" } = some "id-from-header" ∧
    extractAgentId
      { headerXAgentId := .undef
        headerXAportAgentId := .undef
        queryAgentId := .undef
        bodyAgentIdSnake := .undef
        bodyAgentIdCamel := .str "id-from-body-camel"
        optionsAgentId := .undef } = some "id-from-body-camel" ∧
    extractAgentId
      { headerXAgentId := .undef
        headerXAportAgentId := .nullv
        queryAgentId := .str ""
        bodyAgentIdSnake := .nonstring
        bodyAgentIdCamel := .undef
        optionsAgentId := .undef } = none := by
  refine ⟨?_, by decide, by decide, by decide⟩
  intro r
  show firstAccepted (sourceList r) = (sourceList r).findSome? jvalNonEmptyString
  generalize sourceList r = l
  induction l with
  | nil => rfl
  | cons v vs ih =>
    cases v with
    | str s =>
      by_cases h : s = "" <;>
        simp [firstAccepted, List.findSome?, jvalNonEmptyString, h, ih]
    | undef => simp [firstAccepted, List.findSome?, jvalNonEmptyString, ih]
    | nullv => simp [firstAccepted, List.findSome?, jvalNonEmptyString, ih]
    | nonstring => simp [firstAccepted, List.findSome?, jvalNonEmptyString, ih]

/-- Claim C6, counterexample. There is no distinct typed error per failure
class: a 403, a 404 and a 500 response with the body message Agent not
found all make verify throw the very same failure, the untyped message
API Error: Agent not found (only transport failures get the other message
prefix). -/
theorem C6_counterexample :
    verify (fun _ : VerifyRequest Unit =>
        (AxiosResult.httpErr err403 : AxiosResult Body))
        "payments.refund.v1" "agt_1" () =
      (Except.error "API Error: Agent not found", 1) ∧
    verify (fun _ : VerifyRequest Unit =>
        (AxiosResult.httpErr err404 : AxiosResult Body))
        "payments.refund.v1" "agt_1" () =
      verify (fun _ : VerifyRequest Unit =>
          (AxiosResult.httpErr err403 : AxiosResult Body))
          "payments.refund.v1" "agt_1" () ∧
    verify (fun _ : VerifyRequest Unit =>
        (AxiosResult.httpErr err500 : AxiosResult Body))
        "payments.refund.v1" "agt_1" () =
      verify (fun _ : VerifyRequest Unit =>
          (AxiosResult.httpErr err403 : AxiosResult Body))
          "payments.refund.v1" "agt_1" () := by
  exact ⟨rfl, rfl, rfl⟩

/-- Claim C6, amended. verify distinguishes exactly two failure classes,
by message string rather than by type: every HTTP error response,
whatever its status (401, 403, 404, 5xx alike), throws API Error:
followed by the response body's message or, when that is absent or empty,
the statusText; every transport failure with no response throws Network
Error: followed by the transport message. In particular a 403 whose body
message is Agent not found throws a failure carrying that message, and a
connection timeout throws the Network Error failure rather than
producing an allow=false result. -/
theorem C6_error_mapping :
    (∀ (e : ErrResp) (p a : String),
      verify (fun _ : VerifyRequest Unit =>
          (AxiosResult.httpErr e : AxiosResult Body)) p a () =
        (Except.error ("API Error: " ++ jsOrStr e.message e.statusText), 1)) ∧
    (∀ (m p a : String),
      verify (fun _ : VerifyRequest Unit =>
          (AxiosResult.netErr m : AxiosResult Body)) p a () =
        (Except.error ("Network Error: " ++ m), 1)) ∧
    verify (fun _ : VerifyRequest Unit =>
        (AxiosResult.httpErr err403 : AxiosResult Body))
        "payments.refund.v1" "agt_1" () =
      (Except.error "API Error: Agent not found", 1) ∧
    verify (fun _ : VerifyRequest Unit =>
        (AxiosResult.netErr "timeout of 10000ms exceeded" : AxiosResult Body))
        "payments.refund.v1" "agt_1" () =
      (Except.error "Network Error: timeout of 10000ms exceeded", 1) := by
  exact ⟨fun e p a => rfl, fun m p a => rfl, rfl, rfl⟩

/-- Claim C7, counterexample. With a credential configured and the probe
resolving with a body that carries no agent_id, getPassport fails with
Unable to retrieve passport information after a single request: the
authenticated direct lookup is not attempted even though it would have
succeeded (direct is ok goodPass here), and the failure is not the
AuthRequired one. -/
theorem C7_counterexample :
    getPassport (some "key") (AxiosResult.ok noIdPass)
        (AxiosResult.ok goodPass) =
      (Except.error "Unable to retrieve passport information", 1) := by
  rfl

/-- Claim C7, amended. getPassport probes the unauthenticated verify
endpoint first (GET /api/verify/{agentId} with the fixed policy_pack
code.repository.merge.v1); when the probe resolves with a truthy agent_id
the body is returned after one request; when it resolves without one the
call fails with Unable to retrieve passport information after one
request, regardless of the credential; the authenticated fallback runs
only when the probe rejects: then, without a truthy credential the call
fails with the API-key-required message after one request, and with one
the direct lookup's outcome is returned after two requests. -/
theorem C7_probe_then_fallback :
    (∀ a : String, probeRequest a =
      { path := "/api/verify/" ++ a
        policy_pack := some "code.repository.merge.v1" }) ∧
    (∀ (k : Option String) (dr : AxiosResult PassBody),
      getPassport k (AxiosResult.ok goodPass) dr = (Except.ok goodPass, 1)) ∧
    (∀ (k : Option String) (dr : AxiosResult PassBody),
      getPassport k (AxiosResult.ok noIdPass) dr =
        (Except.error "Unable to retrieve passport information", 1)) ∧
    (∀ (e : ErrResp) (dr : AxiosResult PassBody),
      getPassport none (AxiosResult.httpErr e) dr =
        (Except.error "API key required for passport retrieval. Set APORT_API_KEY environment variable or use --api-key option.", 1)) ∧
    (∀ (m : String) (dr : AxiosResult PassBody),
      getPassport none (AxiosResult.netErr m) dr =
        (Except.error "API key required for passport retrieval. Set APORT_API_KEY environment variable or use --api-key option.", 1)) ∧
    (∀ e : ErrResp,
      getPassport (some "key") (AxiosResult.httpErr e)
          (AxiosResult.ok goodPass) = (Except.ok goodPass, 2)) := by
  refine ⟨fun a => rfl, fun k dr => ?_, fun k dr => ?_,
    fun e dr => rfl, fun m dr => rfl, fun e => rfl⟩ <;> rfl

/-- Claim C8, counterexample. suspendPassport does not require a
credential: with none configured it still issues its request (one network
call) and returns the transport's answer instead of failing with a local
AuthRequired error. -/
theorem C8_counterexample :
    suspendPassport (none : Option String)
        (fun _ => AxiosResult.ok goodPass) "agt_1" "Suspended via CLI" =
      (Except.ok goodPass, 1) := by
  rfl

/-- Claim C8, amended. Only createPassport requires a configured
credential: with an absent (or empty, hence falsy) api key it fails
locally with the API-key-required message before any network call (count
0); suspendPassport performs no credential check and issues exactly one
request whatever the configured key, the bearer header of the client
being attached exactly when the key is truthy. -/
theorem C8_credential_requirements :
    (∀ (d : PassBody) (t : PassBody → AxiosResult PassBody),
      createPassport none t d =
        (Except.error "API key required for passport creation. Set APORT_API_KEY environment variable or use --api-key option.", 0)) ∧
    (∀ (d : PassBody) (t : PassBody → AxiosResult PassBody),
      createPassport (some "") t d =
        (Except.error "API key required for passport creation. Set APORT_API_KEY environment variable or use --api-key option.", 0)) ∧
    (∀ (k : Option String) (a r : String)
        (t : SuspendPayload → AxiosResult PassBody),
      (suspendPassport k t a r).2 = 1) ∧
    hasAuthHeader { apiKey := none, baseUrl := "https://aport.io" } = false := by
  refine ⟨fun d t => rfl, fun d t => rfl, fun k a r t => ?_, rfl⟩
  unfold suspendPassport
  cases t { agent_id := a, reason := r } <;> rfl

/-- Claim C9. verifyPolicy is extensionally equal to verify: for every
context type, body type, transport behaviour and argument triple, the two
methods return the same result and issue the same number of requests. -/
theorem C9_verifyPolicy_alias :
    ∀ (κ β : Type) (t : VerifyRequest κ → AxiosResult β)
      (policy agentId : String) (ctx : κ),
      verifyPolicy t policy agentId ctx = verify t policy agentId ctx := by
  intro κ β t policy agentId ctx
  rfl

/-- Claim C10. Constructing a client with no apiKey option and no
APORT_API_KEY environment value succeeds (the embedded constructor is a
total function; the source constructor contains no throw, although the
repository's own unit test expects a throw here) and yields a client with
no credential and the default base URL; the axios instance of such a
client carries no Authorization header, and in general the bearer header
is attached exactly when the configured credential is truthy. -/
theorem C10_constructor_optional_key :
    mkClient { apiKey := none, baseUrl := none }
        { aportApiKey := none, aportBaseUrl := none } =
      { apiKey := none, baseUrl := "https://aport.io" } ∧
    axiosHeaders { apiKey := none, baseUrl := "https://aport.io" } =
      [("Content-Type", "application/json")] ∧
    axiosHeaders { apiKey := some "k", baseUrl := "https://aport.io" } =
      [("Authorization", "Bearer k"), ("Content-Type", "application/json")] ∧
    (∀ (o : ClientOptions) (env : Env),
      hasAuthHeader (mkClient o env) =
        jsTruthyOptStr (mkClient o env).apiKey) := by
  refine ⟨by decide, by decide, by decide, fun o env => ?_⟩
  unfold hasAuthHeader axiosHeaders
  cases h : jsTruthyOptStr (mkClient o env).apiKey <;> simp [h]

end Aport
